import Mathlib

/-!
Verification of the payload classification and rendering pipeline of the
gcp-monitoring-to-discord cloud function (src/function.go).

The repository file contains two variants of the pipeline:
a map-based dispatcher (the first half of function.go, namespace MapVer
below) and an older strictly-typed dispatcher (the second half,
namespace StrictVer below).  Types and functions that are identical in
the two halves (the Discord output structures, the GCP notification
structures and gcpToDiscord) are defined once at top level.

Go JSON conventions modelled here:
  * a parsed JSON document is a `Json` value; an input made of bytes that
    are not valid JSON is represented by `none : Option Json`;
  * json.Unmarshal of a JSON object into a Go map or struct consumes the
    object fields; duplicate keys are modelled as last-binding-wins;
  * json.Unmarshal of the literal null into a map or struct is a no-op
    that succeeds, leaving zero values;
  * numbers are modelled as rationals (Go decodes into float64);
  * the Go runtime is assumed to run with the UTC local timezone (the
    Cloud Functions environment), so time.Unix(..).Format(RFC3339)
    renders UTC timestamps.
-/

/-- A parsed JSON document (the result of a successful json.Unmarshal
into interface\x7b\x7d). -/
inductive Json where
  | null : Json
  | bool : Bool → Json
  | num  : Rat → Json
  | str  : String → Json
  | arr  : List Json → Json
  | obj  : List (String × Json) → Json

/-- Go map indexing m[k] on a decoded JSON object: the last binding of a
duplicated key wins, as in encoding/json. -/
def jlookup (kvs : List (String × Json)) (k : String) : Option Json :=
  kvs.foldl (fun acc p => if p.1 = k then some p.2 else acc) none

/-- Go type assertion v.(string) on an optional interface value. -/
def asStr : Option Json → Option String
  | some (Json.str s) => some s
  | _ => none

/-- Go type assertion v.(float64); every decoded JSON number is a float64. -/
def asNum : Option Json → Option Rat
  | some (Json.num q) => some q
  | _ => none

/-- Go type assertion v.(bool). -/
def asBool : Option Json → Option Bool
  | some (Json.bool b) => some b
  | _ => none

/-- Go type assertion v.(map[string]interface\x7b\x7d): succeeds exactly on
decoded JSON objects. -/
def asObj : Option Json → Option (List (String × Json))
  | some (Json.obj kvs) => some kvs
  | _ => none

/-- json.Unmarshal of a document into map[string]interface\x7b\x7d: succeeds on
a top-level object, and on the literal null (a no-op leaving the map
empty); fails on every other top-level value. -/
def unmarshalMap : Json → Option (List (String × Json))
  | Json.obj kvs => some kvs
  | Json.null => some []
  | _ => none

/-- Whether an Except value is a success. -/
def exceptOk {ε α : Type} : Except ε α → Bool
  | Except.ok _ => true
  | Except.error _ => false

-- Discord webhook structures (identical in both halves of function.go).

structure DiscordEmbedField where
  Name   : String
  Value  : String
  Inline : Bool
deriving DecidableEq, Repr

structure DiscordEmbedFooter where
  Text : String
deriving DecidableEq, Repr

structure DiscordEmbed where
  Title       : String
  Description : String
  URL         : String
  Color       : Int
  Fields      : List DiscordEmbedField
  Footer      : Option DiscordEmbedFooter
  Timestamp   : String
deriving DecidableEq, Repr

structure DiscordWebhook where
  Username  : String
  AvatarURL : String
  Content   : String
  Embeds    : List DiscordEmbed
deriving DecidableEq, Repr

-- GCP notification structures (identical in both halves of function.go).

structure Incident where
  ProjectID     : String
  IncidentID    : String
  ResourceID    : String
  ResourceName  : String
  State         : String
  StartedAt     : Int
  EndedAt       : Int
  PolicyName    : String
  ConditionName : String
  URL           : String
  Summary       : String
deriving DecidableEq, Repr

structure Notification where
  Incident : Incident
  Version  : String
deriving DecidableEq, Repr

/-- The zero value of the Incident struct. -/
def zeroIncident : Incident :=
  ⟨"", "", "", "", "", 0, 0, "", "", "", ""⟩

/-- Decoding a JSON value into a Go string struct field: an absent field
or a null leaves the zero value; a string sets it; anything else is an
UnmarshalTypeError. -/
def jStrField (kvs : List (String × Json)) (k : String) : Option String :=
  match jlookup kvs k with
  | none => some ""
  | some Json.null => some ""
  | some (Json.str s) => some s
  | some _ => none

/-- Decoding a JSON value into a Go int64 struct field: absent or null
gives 0; an integral number in int64 range succeeds; a fractional or
out-of-range number and every other value fail. -/
def jIntField (kvs : List (String × Json)) (k : String) : Option Int :=
  match jlookup kvs k with
  | none => some 0
  | some Json.null => some 0
  | some (Json.num q) =>
      if q.den = 1 ∧ -(2 ^ 63) ≤ q.num ∧ q.num < 2 ^ 63 then some q.num else none
  | some _ => none

/-- json.Unmarshal of a JSON value into the Incident struct. -/
def decodeIncident : Json → Option Incident
  | Json.null => some zeroIncident
  | Json.obj kvs => do
      let pid ← jStrField kvs "scoping_project_id"
      let iid ← jStrField kvs "incident_id"
      let rid ← jStrField kvs "resource_id"
      let rname ← jStrField kvs "resource_name"
      let st ← jStrField kvs "state"
      let sa ← jIntField kvs "started_at"
      let ea ← jIntField kvs "ended_at"
      let pn ← jStrField kvs "policy_name"
      let cn ← jStrField kvs "condition_name"
      let url ← jStrField kvs "url"
      let sm ← jStrField kvs "summary"
      pure ⟨pid, iid, rid, rname, st, sa, ea, pn, cn, url, sm⟩
  | _ => none

/-- json.Unmarshal of a JSON document into the Notification struct:
fails unless the top level is an object (or null); unknown fields are
ignored; a present incident field must itself decode. -/
def decodeNotification : Json → Option Notification
  | Json.null => some ⟨zeroIncident, ""⟩
  | Json.obj kvs => do
      let inc ← match jlookup kvs "incident" with
        | none => some zeroIncident
        | some ji => decodeIncident ji
      let v ← jStrField kvs "version"
      pure ⟨inc, v⟩
  | _ => none

-- Time formatting helpers (models of the Go standard library and of
-- github.com/dustin/go-humanize, which are external to the repository).

/-- Left-pads a natural below 100 to two digits. -/
def pad2 (n : Nat) : String :=
  if n < 10 then "0" ++ toString n else toString n

/-- Left-pads a year to four digits. -/
def pad4 (n : Int) : String :=
  if n < 0 then "-" ++ toString (-n)
  else if n < 10 then "000" ++ toString n
  else if n < 100 then "00" ++ toString n
  else if n < 1000 then "0" ++ toString n
  else toString n

/-- Gregorian civil date from days since 1970-01-01 (the standard
days-to-civil algorithm, as used by time packages). Returns
(year, month, day). -/
def civilFromDays (z0 : Int) : Int × Nat × Nat :=
  let z := z0 + 719468
  let era := (if 0 ≤ z then z else z - 146096) / 146097
  let doe := (z - era * 146097).toNat
  let yoe := (doe - doe / 1460 + doe / 36524 - doe / 146096) / 365
  let y := (yoe : Int) + era * 400
  let doy := doe - (365 * yoe + yoe / 4 - yoe / 100)
  let mp := (5 * doy + 2) / 153
  let d := doy - (153 * mp + 2) / 5 + 1
  let m := if mp < 10 then mp + 3 else mp - 9
  (if m ≤ 2 then y + 1 else y, m, d)

/-- Model of time.Unix(sec, 0).Format(time.RFC3339) under a UTC local
timezone. -/
def formatRFC3339Epoch (t : Int) : String :=
  let days := t.fdiv 86400
  let secs := (t - days * 86400).toNat
  let ymd := civilFromDays days
  pad4 ymd.1 ++ "-" ++ pad2 ymd.2.1 ++ "-" ++ pad2 ymd.2.2 ++ "T" ++
    pad2 (secs / 3600) ++ ":" ++ pad2 (secs % 3600 / 60) ++ ":" ++
    pad2 (secs % 60) ++ "Z"

/-- Model of strings.TrimSpace(humanize.RelTime(a, b, "", "")) for two
epoch-second instants, following the default magnitude table of
go-humanize (Day = 24h, Week = 7d, Month = 30d, Year = 12 Months,
LongTime = 37 Years). -/
def relTime (a b : Int) : String :=
  let diff := if b < a then a - b else b - a
  if diff < 1 then "now"
  else if diff < 2 then "1 second"
  else if diff < 60 then toString diff ++ " seconds"
  else if diff < 120 then "1 minute"
  else if diff < 3600 then toString (diff / 60) ++ " minutes"
  else if diff < 7200 then "1 hour"
  else if diff < 86400 then toString (diff / 3600) ++ " hours"
  else if diff < 172800 then "1 day"
  else if diff < 604800 then toString (diff / 86400) ++ " days"
  else if diff < 1209600 then "1 week"
  else if diff < 2592000 then toString (diff / 604800) ++ " weeks"
  else if diff < 5184000 then "1 month"
  else if diff < 31104000 then toString (diff / 2592000) ++ " months"
  else if diff < 46656000 then "1 year"
  else if diff < 62208000 then "2 years"
  else if diff < 1150848000 then toString (diff / 31104000) ++ " years"
  else "a long while"

/-- Model of fmt.Sprintf with a %.2f verb on a decoded JSON number
(rounding the rational half away from zero at two decimals). -/
def format2f (q : Rat) : String :=
  let neg := q < 0
  let n := (|q| * 100 + 1 / 2).floor.toNat
  (if neg then "-" else "") ++ toString (n / 100) ++ "." ++ pad2 (n % 100)

/-- The title built by gcpToDiscord:
fmt.Sprintf with the incident verb spliced in. -/
def gcpTitle (projectId policyName verb : String) : String :=
  "\"" ++ projectId ++ "\" - Incident " ++ verb ++ " for \"" ++ policyName ++ "\""

/-- gcpToDiscord from function.go (identical in both halves): converts a
GCP notification into the Discord webhook message.  The render instant
time.Now() is passed in as the pre-formatted string now. -/
def gcpToDiscord (now : String) (notification : Notification) : DiscordWebhook :=
  let projectId := if notification.Incident.ProjectID = "" then "-" else notification.Incident.ProjectID
  let policyName := if notification.Incident.PolicyName = "" then "-" else notification.Incident.PolicyName
  let conditionName := if notification.Incident.ConditionName = "" then "-" else notification.Incident.ConditionName
  let fields : List DiscordEmbedField :=
    [⟨"Project ID", projectId, true⟩,
     ⟨"Incident ID", notification.Incident.IncidentID, true⟩,
     ⟨"Condition", conditionName, true⟩] ++
    (if 0 < notification.Incident.StartedAt then
      [⟨"Started at", formatRFC3339Epoch notification.Incident.StartedAt, true⟩] ++
      (if 0 < notification.Incident.EndedAt then
        [⟨"Ended at",
          formatRFC3339Epoch notification.Incident.EndedAt ++ " (" ++
            relTime notification.Incident.StartedAt notification.Incident.EndedAt ++ ")",
          true⟩]
       else [])
     else [])
  let color : Int := if notification.Incident.State = "open" then 16007725 else 1619771
  let title := gcpTitle projectId policyName
    (if notification.Incident.State = "open" then "opened" else "closed")
  let summary := if notification.Incident.Summary = "" then "No summary available."
    else notification.Incident.Summary
  { Username := "GCP Monitoring"
    AvatarURL := "https://www.gstatic.com/images/branding/product/2x/stackdriver_64dp.png"
    Content := ""
    Embeds := [{ Title := title
                 Description := summary
                 URL := notification.Incident.URL
                 Color := color
                 Fields := fields
                 Footer := some ⟨"GCP Monitoring Alert"⟩
                 Timestamp := now }] }

-- Model of Go time.Parse restricted to the two layouts tried by
-- formatDate, and of Format("Jan 2, 2006 15:04 MST").

/-- A parsed wall-clock instant with its zone offset in minutes. -/
structure GoTime where
  Year      : Int
  Month     : Nat
  Day       : Nat
  Hour      : Nat
  Minute    : Nat
  Second    : Nat
  OffsetMin : Int
deriving DecidableEq, Repr

/-- The numeric value of an ASCII digit. -/
def digitVal (c : Char) : Option Nat :=
  if c.isDigit then some (c.toNat - 48) else none

/-- Go getnum with fixed width 2: exactly two digits. -/
def getnum2 : List Char → Option (Nat × List Char)
  | c1 :: c2 :: rest => do
      let d1 ← digitVal c1
      let d2 ← digitVal c2
      pure (d1 * 10 + d2, rest)
  | _ => none

/-- Go getnum with fixed = false: one digit, or two when the second
character is also a digit. -/
def getnum12 : List Char → Option (Nat × List Char)
  | [] => none
  | [c1] => do
      let d1 ← digitVal c1
      pure (d1, [])
  | c1 :: c2 :: rest => do
      let d1 ← digitVal c1
      match digitVal c2 with
      | some d2 => pure (d1 * 10 + d2, rest)
      | none => pure (d1, c2 :: rest)

/-- A four-digit year (Go stdLongYear). -/
def getnum4 (cs : List Char) : Option (Nat × List Char) := do
  let (hi, cs) ← getnum2 cs
  let (lo, cs) ← getnum2 cs
  pure (hi * 100 + lo, cs)

/-- Consumes one expected literal character. -/
def expectChar (c : Char) : List Char → Option (List Char)
  | c0 :: rest => if c0 = c then some rest else none
  | [] => none

/-- Gregorian leap-year test. -/
def isLeap (y : Int) : Bool :=
  y % 4 = 0 && (y % 100 ≠ 0 || y % 400 = 0)

/-- Days in a month (Go daysIn). -/
def daysIn (m : Nat) (y : Int) : Nat :=
  match m with
  | 1 => 31 | 2 => if isLeap y then 29 else 28 | 3 => 31 | 4 => 30
  | 5 => 31 | 6 => 30 | 7 => 31 | 8 => 31 | 9 => 30 | 10 => 31
  | 11 => 30 | 12 => 31 | _ => 0

/-- The calendar-date prefix 2006-01-02 of both layouts. -/
def parseYMD (cs : List Char) : Option (Nat × Nat × Nat × List Char) := do
  let (y, cs) ← getnum4 cs
  let cs ← expectChar '-' cs
  let (mo, cs) ← getnum2 cs
  let cs ← expectChar '-' cs
  let (d, cs) ← getnum2 cs
  pure (y, mo, d, cs)

/-- The clock part 15:04:05 with a strictly two-digit hour. -/
def parseHMS (cs : List Char) : Option (Nat × Nat × Nat × List Char) := do
  let (h, cs) ← getnum2 cs
  let cs ← expectChar ':' cs
  let (mi, cs) ← getnum2 cs
  let cs ← expectChar ':' cs
  let (sec, cs) ← getnum2 cs
  pure (h, mi, sec, cs)

/-- The clock part with a one-or-two-digit hour (layout verb 15 under
the general Parse path). -/
def parseHMSFlex (cs : List Char) : Option (Nat × Nat × Nat × List Char) := do
  let (h, cs) ← getnum12 cs
  let cs ← expectChar ':' cs
  let (mi, cs) ← getnum2 cs
  let cs ← expectChar ':' cs
  let (sec, cs) ← getnum2 cs
  pure (h, mi, sec, cs)

/-- The mandatory six-digit fraction of the .000000 layout verb. -/
def parseFrac6 (cs : List Char) : Option (List Char) := do
  let cs ← expectChar '.' cs
  let (_, cs) ← getnum2 cs
  let (_, cs) ← getnum2 cs
  let (_, cs) ← getnum2 cs
  pure cs

/-- The numeric zone of the -0700 layout verb: a sign and four digits,
yielding the offset in minutes. -/
def parseNumOffset (cs : List Char) : Option (Int × List Char) := do
  let (sgn, cs) ← (match cs with
    | '+' :: rest => some ((1 : Int), rest)
    | '-' :: rest => some ((-1 : Int), rest)
    | _ => none)
  let (zh, cs) ← getnum2 cs
  let (zm, cs) ← getnum2 cs
  pure (sgn * ((zh : Int) * 60 + zm), cs)

/-- The zone of RFC 3339: the remaining input must be exactly Z or a
sign, two hour digits in 0..23, a colon, and two minute digits in 0..59. -/
def parseColonOffset : List Char → Option Int
  | ['Z'] => some 0
  | [sg, h1, h2, ':', m1, m2] => do
      let d1 ← digitVal h1
      let d2 ← digitVal h2
      let e1 ← digitVal m1
      let e2 ← digitVal m2
      let zh := d1 * 10 + d2
      let zm := e1 * 10 + e2
      if (sg = '+' ∨ sg = '-') ∧ zh ≤ 23 ∧ zm ≤ 59 then
        some ((if sg = '-' then (-1 : Int) else 1) * ((zh : Int) * 60 + zm))
      else none
  | _ => none

/-- The range validation Go performs after scanning a layout. -/
def validClock (y : Nat) (mo d h mi sec : Nat) : Prop :=
  1 ≤ mo ∧ mo ≤ 12 ∧ 1 ≤ d ∧ d ≤ daysIn mo y ∧ h ≤ 23 ∧ mi ≤ 59 ∧ sec ≤ 59

instance (y mo d h mi sec : Nat) : Decidable (validClock y mo d h mi sec) := by
  unfold validClock; infer_instance

/-- time.Parse with layout 2006-01-02T15:04:05.000000-0700: four-digit
year, two-digit month/day/minute/second, one-or-two-digit hour, exactly
six fractional digits, then a sign and a four-digit numeric offset, with
the ranges Go validates after scanning. -/
def parseLayout1 (isoDate : String) : Option GoTime := do
  let (y, mo, d, cs) ← parseYMD isoDate.data
  let cs ← expectChar 'T' cs
  let (h, mi, sec, cs) ← parseHMSFlex cs
  let cs ← parseFrac6 cs
  let (off, cs) ← parseNumOffset cs
  if cs = [] ∧ validClock y mo d h mi sec then
    some ⟨y, mo, d, h, mi, sec, off⟩
  else none

/-- time.Parse with the RFC-3339 layout (the strict Go fast path):
fixed-width numeric fields, an optional fraction of at least one digit,
then Z or a colon-separated numeric offset. -/
def parseRFC3339 (isoDate : String) : Option GoTime := do
  let (y, mo, d, cs) ← parseYMD isoDate.data
  let cs ← expectChar 'T' cs
  let (h, mi, sec, cs) ← parseHMS cs
  let cs := match cs with
    | '.' :: c :: rest =>
        if c.isDigit then rest.dropWhile Char.isDigit else '.' :: c :: rest
    | other => other
  let off ← parseColonOffset cs
  if validClock y mo d h mi sec then
    some ⟨y, mo, d, h, mi, sec, off⟩
  else none

/-- Month abbreviations used by the Jan 2 layout. -/
def monthAbbrev : Nat → String
  | 1 => "Jan" | 2 => "Feb" | 3 => "Mar" | 4 => "Apr" | 5 => "May"
  | 6 => "Jun" | 7 => "Jul" | 8 => "Aug" | 9 => "Sep" | 10 => "Oct"
  | 11 => "Nov" | 12 => "Dec" | _ => ""

/-- The MST verb of Format under a UTC local zone: the abbreviation UTC
for a zero offset (Z, +00:00 and +0000 all resolve to the local UTC
zone), and the numeric -0700 form for every other parsed offset (whose
fixed zone carries no name). -/
def zoneAbbrev (off : Int) : String :=
  if off = 0 then "UTC"
  else (if off < 0 then "-" else "+") ++
    pad2 (off.natAbs / 60) ++ pad2 (off.natAbs % 60)

/-- t.Format("Jan 2, 2006 15:04 MST"). -/
def formatHumanDate (t : GoTime) : String :=
  monthAbbrev t.Month ++ " " ++ toString t.Day ++ ", " ++ toString t.Year ++
    " " ++ pad2 t.Hour ++ ":" ++ pad2 t.Minute ++ " " ++ zoneAbbrev t.OffsetMin

/-- The two error kinds the dispatcher can produce: malformedPayload for
the failed-to-parse errors and unrecognizedPayload for the
payload-format-not-recognized error. -/
inductive ProcErr where
  | malformedPayload : ProcErr
  | unrecognizedPayload : ProcErr
deriving DecidableEq, Repr

namespace MapVer

/-- formatDate from the map-based half of function.go: tries the
microsecond layout, then RFC 3339, and falls back to the input. -/
def formatDate (isoDate : String) : String :=
  match parseLayout1 isoDate with
  | some t => formatHumanDate t
  | none =>
    match parseRFC3339 isoDate with
    | some t => formatHumanDate t
    | none => isoDate

/-- The colors map of adaptyMapToDiscord. -/
def colors : String → Option Int
  | "subscription_started" => some 3066993
  | "subscription_renewed" => some 3447003
  | "subscription_expired" => some 16776960
  | "subscription_canceled" => some 15158332
  | "trial_started" => some 10181046
  | "trial_converted" => some 3066993
  | "trial_expired" => some 15158332
  | "non_subscription_purchase" => some 3066993
  | "subscription_in_grace_period" => some 16776960
  | "transaction_refunded" => some 15158332
  | "subscription_renewal_cancelled" => some 15158332
  | "subscription_renewal_reactivated" => some 3066993
  | "subscription_paused" => some 16776960
  | "subscription_deferred" => some 16776960
  | "trial_renewal_cancelled" => some 15158332
  | "trial_renewal_reactivated" => some 3066993
  | "entered_grace_period" => some 16776960
  | "billing_issue_detected" => some 15158332
  | "subscription_refunded" => some 15158332
  | "non_subscription_purchase_refunded" => some 15158332
  | "access_level_updated" => some 3447003
  | _ => none

/-- Capitalizing the first character of an underscore segment
(strings.ToUpper on the leading byte; ASCII model). -/
def capitalizeFirst (s : String) : String :=
  match s.data with
  | [] => ""
  | c :: cs => String.mk (c.toUpper :: cs)

/-- formatEventType from the map-based half: the fixed table, with the
split-capitalize-join fallback for unknown tokens. -/
def formatEventType (eventType : String) : String :=
  match eventType with
  | "subscription_started" => "Subscription Started"
  | "subscription_renewed" => "Subscription Renewed"
  | "subscription_expired" => "Subscription Expired"
  | "subscription_canceled" => "Subscription Canceled"
  | "subscription_in_grace_period" => "Subscription in Grace Period"
  | "trial_started" => "Trial Started"
  | "trial_converted" => "Trial Converted"
  | "trial_expired" => "Trial Expired"
  | "non_subscription_purchase" => "One-time Purchase"
  | "transaction_refunded" => "Transaction Refunded"
  | "subscription_renewal_cancelled" => "Subscription Renewal Cancelled"
  | "subscription_renewal_reactivated" => "Subscription Renewal Reactivated"
  | "subscription_paused" => "Subscription Paused"
  | "subscription_deferred" => "Subscription Deferred"
  | "trial_renewal_cancelled" => "Trial Renewal Cancelled"
  | "trial_renewal_reactivated" => "Trial Renewal Reactivated"
  | "entered_grace_period" => "Entered Grace Period"
  | "billing_issue_detected" => "Billing Issue Detected"
  | "subscription_refunded" => "Subscription Refunded"
  | "non_subscription_purchase_refunded" => "One-time Purchase Refunded"
  | "access_level_updated" => "Access Level Updated"
  | _ => String.intercalate " " ((eventType.splitOn "_").map capitalizeFirst)

/-- The first switch of createMapEventDescription: the generic sentence
for each known event type. -/
def genericDescription : String → Option String
  | "subscription_started" => some "A new subscription has been started."
  | "subscription_renewed" => some "A subscription has been successfully renewed."
  | "subscription_expired" => some "A subscription has expired."
  | "subscription_canceled" => some "A subscription has been canceled."
  | "subscription_in_grace_period" => some "A subscription is in grace period due to billing issues."
  | "trial_started" => some "A new trial period has started."
  | "trial_converted" => some "A trial has been converted to a paid subscription."
  | "trial_expired" => some "A trial period has expired."
  | "non_subscription_purchase" => some "A one-time purchase has been completed."
  | "transaction_refunded" => some "A transaction has been refunded."
  | "subscription_renewal_cancelled" => some "Auto-renewal for a subscription has been cancelled."
  | "subscription_renewal_reactivated" => some "Auto-renewal for a subscription has been reactivated."
  | "subscription_paused" => some "A subscription has been paused."
  | "subscription_deferred" => some "A subscription renewal has been deferred to a later date."
  | "trial_renewal_cancelled" => some "Auto-renewal for a trial has been cancelled."
  | "trial_renewal_reactivated" => some "Auto-renewal for a trial has been reactivated."
  | "entered_grace_period" => some "A subscription has entered a grace period due to billing issues."
  | "billing_issue_detected" => some "A billing issue has been detected for a subscription."
  | "subscription_refunded" => some "A subscription payment has been refunded."
  | "non_subscription_purchase_refunded" => some "A one-time purchase has been refunded."
  | "access_level_updated" => some "A user's access level has been updated."
  | _ => none

/-- The product-specific switch of createMapEventDescription. -/
def productDescription (eventType productID : String) : Option String :=
  match eventType with
  | "subscription_started" => some ("A new subscription for **" ++ productID ++ "** has been started.")
  | "subscription_renewed" => some ("The subscription for **" ++ productID ++ "** has been successfully renewed.")
  | "subscription_expired" => some ("The subscription for **" ++ productID ++ "** has expired.")
  | "subscription_canceled" => some ("The subscription for **" ++ productID ++ "** has been canceled.")
  | "subscription_in_grace_period" => some ("The subscription for **" ++ productID ++ "** is in grace period due to billing issues.")
  | "trial_started" => some ("A new trial period for **" ++ productID ++ "** has started.")
  | "trial_converted" => some ("The trial for **" ++ productID ++ "** has been converted to a paid subscription.")
  | "trial_expired" => some ("The trial period for **" ++ productID ++ "** has expired.")
  | "non_subscription_purchase" => some ("A one-time purchase of **" ++ productID ++ "** has been completed.")
  | "transaction_refunded" => some ("A transaction for **" ++ productID ++ "** has been refunded.")
  | "subscription_renewal_cancelled" => some ("Auto-renewal for the **" ++ productID ++ "** subscription has been cancelled.")
  | "subscription_renewal_reactivated" => some ("Auto-renewal for the **" ++ productID ++ "** subscription has been reactivated.")
  | "subscription_paused" => some ("The subscription for **" ++ productID ++ "** has been paused.")
  | "subscription_deferred" => some ("The renewal for the **" ++ productID ++ "** subscription has been deferred to a later date.")
  | "trial_renewal_cancelled" => some ("Auto-renewal for the **" ++ productID ++ "** trial has been cancelled.")
  | "trial_renewal_reactivated" => some ("Auto-renewal for the **" ++ productID ++ "** trial has been reactivated.")
  | "entered_grace_period" => some ("The subscription for **" ++ productID ++ "** has entered a grace period due to billing issues.")
  | "billing_issue_detected" => some ("A billing issue has been detected for the **" ++ productID ++ "** subscription.")
  | "subscription_refunded" => some ("A subscription payment for **" ++ productID ++ "** has been refunded.")
  | "non_subscription_purchase_refunded" => some ("A one-time purchase of **" ++ productID ++ "** has been refunded.")
  | "access_level_updated" => some ("Access level related to **" ++ productID ++ "** has been updated.")
  | _ => none

/-- The price-specific switch of createMapEventDescription. -/
def priceDescription (eventType : String) (priceUSD : Rat) : Option String :=
  match eventType with
  | "subscription_started" => some ("A new subscription has been started for $" ++ format2f priceUSD ++ ".")
  | "non_subscription_purchase" => some ("A one-time purchase has been completed for $" ++ format2f priceUSD ++ ".")
  | "subscription_refunded" => some ("A subscription payment of $" ++ format2f priceUSD ++ " has been refunded.")
  | "non_subscription_purchase_refunded" => some ("A one-time purchase of $" ++ format2f priceUSD ++ " has been refunded.")
  | _ => none

/-- createMapEventDescription from function.go: the generic switch runs
first and returns for every known event type; only afterwards do the
product, price and access-level refinements run, followed by the
Received-event fallback. -/
def createMapEventDescription (eventType : String)
    (eventProps : Option (List (String × Json))) : String :=
  match genericDescription eventType with
  | some d => d
  | none =>
    match eventProps with
    | none => "Received event: " ++ eventType
    | some props =>
      let productID := (asStr (jlookup props "vendor_product_id")).getD ""
      match (if productID ≠ "" then productDescription eventType productID else none) with
      | some d => d
      | none =>
        match (match asNum (jlookup props "price_usd") with
               | some p => priceDescription eventType p
               | none => none) with
        | some d => d
        | none =>
          if eventType = "access_level_updated" then
            match asStr (jlookup props "access_level") with
            | some al =>
                if al ≠ "" then "User access level has been updated to **" ++ al ++ "**."
                else "Received event: " ++ eventType
            | none => "Received event: " ++ eventType
          else "Received event: " ++ eventType

/-- A conditional inline field emitted when a map key holds a non-empty
string. -/
def strField (kvs : List (String × Json)) (k fieldName : String) :
    List DiscordEmbedField :=
  match asStr (jlookup kvs k) with
  | some s => if s = "" then [] else [⟨fieldName, s, true⟩]
  | none => []

/-- A conditional inline date field, passed through formatDate. -/
def dateField (kvs : List (String × Json)) (k fieldName : String) :
    List DiscordEmbedField :=
  match asStr (jlookup kvs k) with
  | some s => if s = "" then [] else [⟨fieldName, formatDate s, true⟩]
  | none => []

/-- adaptyMapToDiscord from function.go: renders a loosely decoded
Adapty event map, appending fields in the fixed source order. -/
def adaptyMapToDiscord (now : String) (event : List (String × Json)) :
    DiscordWebhook :=
  let eventType := (asStr (jlookup event "event_type")).getD ""
  let color : Int := (colors eventType).getD 7506394
  let title := "Adapty: " ++ formatEventType eventType
  let eventProps := asObj (jlookup event "event_properties")
  let fields : List DiscordEmbedField :=
    strField event "customer_user_id" "User" ++
    strField event "email" "Email" ++
    strField event "profile_id" "Profile ID" ++
    (match eventProps with
     | none => []
     | some props =>
       strField props "transaction_id" "Transaction ID" ++
       strField props "vendor_product_id" "Product" ++
       strField props "base_plan_id" "Base Plan" ++
       strField props "store" "Store" ++
       strField props "environment" "Environment" ++
       (match asNum (jlookup props "price_usd") with
        | some p =>
            [⟨"Revenue (USD)",
              "$" ++ format2f p ++
                (match asNum (jlookup props "proceeds_usd") with
                 | some pr => " (Net: $" ++ format2f pr ++ ")"
                 | none => ""),
              true⟩]
        | none => []) ++
       (match asBool (jlookup props "profile_has_access_level") with
        | some b => [⟨"Has Access", if b then "Yes" else "No", true⟩]
        | none => []) ++
       (match asBool (jlookup props "will_renew") with
        | some b => [⟨"Will Renew", if b then "Yes" else "No", true⟩]
        | none => []) ++
       dateField props "purchase_date" "Purchase Date" ++
       dateField props "subscription_expires_at" "Expires At" ++
       dateField props "pause_start_date" "Pause Start Date" ++
       dateField props "auto_resume_date" "Auto Resume Date" ++
       dateField props "deferred_expiration_date" "Deferred Expiration" ++
       strField props "cancellation_reason" "Cancellation Reason" ++
       strField props "billing_error" "Billing Error" ++
       strField props "access_level" "Access Level" ++
       strField props "paywall_name" "Paywall" ++
       strField props "ab_test_name" "A/B Test")
  let description := createMapEventDescription eventType eventProps
  { Username := "Adapty"
    AvatarURL := "https://avatars.githubusercontent.com/u/55606573"
    Content := ""
    Embeds := [{ Title := title
                 Description := description
                 URL := ""
                 Color := color
                 Fields := fields
                 Footer := some ⟨"Adapty Subscription Management"⟩
                 Timestamp := now }] }

/-- The minimal webhook built by the partial bare-event fallback branch
of processPayload. -/
def partialEventWebhook (now event : String) : DiscordWebhook :=
  { Username := "Adapty"
    AvatarURL := "https://avatars.githubusercontent.com/u/55606573"
    Content := ""
    Embeds := [{ Title := "Adapty: " ++ event
                 Description := "Received event: " ++ event
                 URL := ""
                 Color := 7506394
                 Fields := []
                 Footer := some ⟨"Adapty Subscription Management"⟩
                 Timestamp := now }] }

/-- The tail of the map-based processPayload after the GCP check: the
Adapty map unmarshal, the bare-event fallback, and the final error. -/
def processAdapty (now : String) (j : Json)
    (rawPayload : List (String × Json)) : Except ProcErr DiscordWebhook :=
  match unmarshalMap j with
  | some adaptyEvent => Except.ok (adaptyMapToDiscord now adaptyEvent)
  | none =>
    match asStr (jlookup rawPayload "event") with
    | some event => Except.ok (partialEventWebhook now event)
    | none => Except.error ProcErr.unrecognizedPayload

/-- processPayload from the map-based half of function.go.  The input
none stands for bytes that are not valid JSON (every json.Unmarshal on
them fails). -/
def processPayload (now : String) (body : Option Json) :
    Except ProcErr DiscordWebhook :=
  match body with
  | none => Except.error ProcErr.malformedPayload
  | some j =>
    match unmarshalMap j with
    | none => Except.error ProcErr.malformedPayload
    | some rawPayload =>
      match decodeNotification j with
      | some gcpNotification =>
          if gcpNotification.Incident.IncidentID ≠ "" then
            Except.ok (gcpToDiscord now gcpNotification)
          else processAdapty now j rawPayload
      | none => processAdapty now j rawPayload

/-- The observable outcome of one request in the entry point F, after
authentication: a verification short-circuit response, a processed
webhook handed to delivery, or the invalid-payload rejection. -/
inductive FOutcome where
  | verification : String → FOutcome
  | delivered : DiscordWebhook → FOutcome
  | badPayload : FOutcome
deriving DecidableEq, Repr

/-- The body written for an adapty_check probe. -/
def adaptyCheckBody (s : String) : String :=
  "\x7b\"adapty_check_response\": \"" ++ s ++ "\"\x7d"

/-- The fixed body written for an isMount probe. -/
def mountAckBody : String :=
  "\x7b\"status\":\"ok\",\"message\":\"Webhook verification successful\"\x7d"

/-- The verification-responder and dispatch portion of the entry point F
(map-based half): the adapty_check probe, then the top-level isMount
probe, then the isMount probe nested under a data object, and otherwise
normal processing through processPayload. -/
def F_core (now : String) (body : Option Json) : FOutcome :=
  let processOutcome : FOutcome :=
    match processPayload now body with
    | Except.ok w => FOutcome.delivered w
    | Except.error _ => FOutcome.badPayload
  match (match body with | none => none | some j => unmarshalMap j) with
  | none => processOutcome
  | some rawPayload =>
    match asStr (jlookup rawPayload "adapty_check") with
    | some checkString => FOutcome.verification (adaptyCheckBody checkString)
    | none =>
      if asStr (jlookup rawPayload "event") = some "isMount" then
        FOutcome.verification mountAckBody
      else
        match asObj (jlookup rawPayload "data") with
        | some data =>
            if asStr (jlookup data "event") = some "isMount" then
              FOutcome.verification mountAckBody
            else processOutcome
        | none => processOutcome

end MapVer

namespace StrictVer

-- Adapty event structures from the strictly-typed half of function.go.

structure AdaptySubscription where
  ID        : String
  Status    : String
  Store     : String
  ProductID : String
  ExpiresAt  : Int
  CanceledAt : Int
  StartedAt  : Int
  RenewedAt  : Int
  IsSandbox  : Bool
deriving DecidableEq, Repr

structure AdaptyTransaction where
  ID          : String
  OfferID     : String
  ProductID   : String
  PurchasedAt : Int
  IsRestored  : Bool
  Value       : Rat
  Currency    : String
  Store       : String
  IsSandbox   : Bool
deriving DecidableEq, Repr

structure AdaptyProduct where
  VendorProductID : String
  BasePlanID      : String
deriving DecidableEq, Repr

structure AdaptyEventData where
  ProfileID      : String
  CustomerUserID : String
  Subscription   : Option AdaptySubscription
  Transaction    : Option AdaptyTransaction
  NewStatus      : String
  PreviousStatus : String
  Product        : Option AdaptyProduct
deriving DecidableEq, Repr

structure AdaptyEvent where
  Event     : String
  EventType : String
  Timestamp : Int
  Data      : AdaptyEventData
deriving DecidableEq, Repr

/-- Decoding a JSON value into a Go bool struct field. -/
def jBoolField (kvs : List (String × Json)) (k : String) : Option Bool :=
  match jlookup kvs k with
  | none => some false
  | some Json.null => some false
  | some (Json.bool b) => some b
  | some _ => none

/-- Decoding a JSON value into a Go float64 struct field. -/
def jNumField (kvs : List (String × Json)) (k : String) : Option Rat :=
  match jlookup kvs k with
  | none => some 0
  | some Json.null => some 0
  | some (Json.num q) => some q
  | some _ => none

/-- Decoding a JSON value into a Go pointer-to-struct field: absent or
null leaves the nil pointer; an object decodes into a fresh struct. -/
def jPtrField {α : Type} (kvs : List (String × Json)) (k : String)
    (dec : List (String × Json) → Option α) : Option (Option α) :=
  match jlookup kvs k with
  | none => some none
  | some Json.null => some none
  | some (Json.obj skvs) => (dec skvs).map some
  | some _ => none

/-- json.Unmarshal of an object into AdaptySubscription. -/
def decodeSubscriptionObj (kvs : List (String × Json)) :
    Option AdaptySubscription := do
  let id ← jStrField kvs "id"
  let status ← jStrField kvs "status"
  let store ← jStrField kvs "store"
  let productID ← jStrField kvs "product_id"
  let expiresAt ← jIntField kvs "expires_at"
  let canceledAt ← jIntField kvs "canceled_at"
  let startedAt ← jIntField kvs "started_at"
  let renewedAt ← jIntField kvs "renewed_at"
  let isSandbox ← jBoolField kvs "is_sandbox"
  pure ⟨id, status, store, productID, expiresAt, canceledAt, startedAt, renewedAt, isSandbox⟩

/-- json.Unmarshal of an object into AdaptyTransaction. -/
def decodeTransactionObj (kvs : List (String × Json)) :
    Option AdaptyTransaction := do
  let id ← jStrField kvs "id"
  let offerID ← jStrField kvs "offer_id"
  let productID ← jStrField kvs "product_id"
  let purchasedAt ← jIntField kvs "purchased_at"
  let isRestored ← jBoolField kvs "is_restored"
  let value ← jNumField kvs "value"
  let currency ← jStrField kvs "currency"
  let store ← jStrField kvs "store"
  let isSandbox ← jBoolField kvs "is_sandbox"
  pure ⟨id, offerID, productID, purchasedAt, isRestored, value, currency, store, isSandbox⟩

/-- json.Unmarshal of an object into AdaptyProduct. -/
def decodeProductObj (kvs : List (String × Json)) : Option AdaptyProduct := do
  let vendorProductID ← jStrField kvs "vendor_product_id"
  let basePlanID ← jStrField kvs "base_plan_id"
  pure ⟨vendorProductID, basePlanID⟩

/-- The zero value of AdaptyEventData. -/
def zeroEventData : AdaptyEventData :=
  ⟨"", "", none, none, "", "", none⟩

/-- json.Unmarshal of a JSON value into AdaptyEventData. -/
def decodeEventData : Json → Option AdaptyEventData
  | Json.null => some zeroEventData
  | Json.obj kvs => do
      let profileID ← jStrField kvs "profile_id"
      let customerUserID ← jStrField kvs "customer_user_id"
      let subscription ← jPtrField kvs "subscription" decodeSubscriptionObj
      let transaction ← jPtrField kvs "transaction" decodeTransactionObj
      let newStatus ← jStrField kvs "new_status"
      let previousStatus ← jStrField kvs "previous_status"
      let product ← jPtrField kvs "product" decodeProductObj
      pure ⟨profileID, customerUserID, subscription, transaction, newStatus, previousStatus, product⟩
  | _ => none

/-- json.Unmarshal of a JSON document into the AdaptyEvent struct:
fails unless the top level is an object (or null); unknown fields are
ignored. -/
def decodeAdaptyEvent : Json → Option AdaptyEvent
  | Json.null => some ⟨"", "", 0, zeroEventData⟩
  | Json.obj kvs => do
      let ev ← jStrField kvs "event"
      let et ← jStrField kvs "event_type"
      let ts ← jIntField kvs "timestamp"
      let data ← (match jlookup kvs "data" with
        | none => some zeroEventData
        | some jd => decodeEventData jd)
      pure ⟨ev, et, ts, data⟩
  | _ => none

/-- The colors map of the strictly-typed adaptyToDiscord. -/
def colors : String → Option Int
  | "subscription_started" => some 3066993
  | "subscription_renewed" => some 3447003
  | "subscription_expired" => some 16776960
  | "subscription_canceled" => some 15158332
  | "trial_started" => some 10181046
  | "trial_converted" => some 3066993
  | "trial_expired" => some 15158332
  | "transaction_completed" => some 3066993
  | "transaction_restored" => some 3447003
  | "transaction_refunded" => some 15158332
  | _ => none

/-- formatEventType from the strictly-typed half: a smaller fixed table
whose default returns the token unchanged. -/
def formatEventType (eventType : String) : String :=
  match eventType with
  | "subscription_started" => "Subscription Started"
  | "subscription_renewed" => "Subscription Renewed"
  | "subscription_expired" => "Subscription Expired"
  | "subscription_canceled" => "Subscription Canceled"
  | "trial_started" => "Trial Started"
  | "trial_converted" => "Trial Converted"
  | "trial_expired" => "Trial Expired"
  | "transaction_completed" => "Transaction Completed"
  | "transaction_restored" => "Transaction Restored"
  | "transaction_refunded" => "Transaction Refunded"
  | _ => eventType

/-- createEventDescription from the strictly-typed half. -/
def createEventDescription (event : AdaptyEvent) : String :=
  match event.EventType with
  | "subscription_started" => "A new subscription has been started."
  | "subscription_renewed" => "A subscription has been successfully renewed."
  | "subscription_expired" => "A subscription has expired."
  | "subscription_canceled" => "A subscription has been canceled."
  | "trial_started" => "A new trial period has started."
  | "trial_converted" => "A trial has been converted to a paid subscription."
  | "trial_expired" => "A trial period has expired."
  | "transaction_completed" => "A transaction has been completed successfully."
  | "transaction_restored" => "A transaction has been restored."
  | "transaction_refunded" => "A transaction has been refunded."
  | _ => "Received event: " ++ event.EventType

/-- The subscription-derived fields of adaptyToDiscord. -/
def subscriptionFields (sub : AdaptySubscription) : List DiscordEmbedField :=
  [⟨"Product", sub.ProductID, true⟩,
   ⟨"Status", sub.Status, true⟩,
   ⟨"Store", sub.Store, true⟩,
   ⟨"Environment", if sub.IsSandbox then "Sandbox" else "Production", true⟩] ++
  (if 0 < sub.StartedAt then
    [⟨"Started At", formatRFC3339Epoch sub.StartedAt, true⟩] else []) ++
  (if 0 < sub.ExpiresAt then
    [⟨"Expires At", formatRFC3339Epoch sub.ExpiresAt, true⟩] else [])

/-- The transaction-derived fields of adaptyToDiscord. -/
def transactionFields (sub : Option AdaptySubscription)
    (txn : AdaptyTransaction) : List DiscordEmbedField :=
  (if txn.ProductID ≠ "" ∧ (match sub with
      | none => true
      | some s => s.ProductID == "") = true then
    [⟨"Product", txn.ProductID, true⟩] else []) ++
  [⟨"Transaction ID", txn.ID, true⟩] ++
  (if 0 < txn.Value then
    [⟨"Amount", format2f txn.Value ++ " " ++ txn.Currency, true⟩] else []) ++
  (if txn.IsSandbox then [⟨"Environment", "Sandbox", true⟩]
   else if sub.isNone then [⟨"Environment", "Production", true⟩] else []) ++
  (if txn.IsRestored then [⟨"Restored", "Yes", true⟩] else [])

/-- adaptyToDiscord from the strictly-typed half of function.go. -/
def adaptyToDiscord (now : String) (event : AdaptyEvent) : DiscordWebhook :=
  let color : Int := (colors event.EventType).getD 7506394
  let title := "Adapty: " ++ formatEventType event.EventType
  let fields : List DiscordEmbedField :=
    (if event.Data.CustomerUserID ≠ "" then
      [⟨"User", event.Data.CustomerUserID, true⟩] else []) ++
    [⟨"Profile ID", event.Data.ProfileID, true⟩] ++
    (match event.Data.Subscription with
     | some sub => subscriptionFields sub
     | none => []) ++
    (match event.Data.Transaction with
     | some txn => transactionFields event.Data.Subscription txn
     | none => [])
  { Username := "Adapty"
    AvatarURL := "https://avatars.githubusercontent.com/u/55606573"
    Content := ""
    Embeds := [{ Title := title
                 Description := createEventDescription event
                 URL := ""
                 Color := color
                 Fields := fields
                 Footer := some ⟨"Adapty Subscription Management"⟩
                 Timestamp := now }] }

/-- processPayload from the strictly-typed half of function.go: the GCP
decode with its incident_id acceptance test, then the Adapty decode with
its event/event_type acceptance test, a failed-to-parse error when both
unmarshals failed, and the not-recognized error otherwise. -/
def processPayload (now : String) (body : Option Json) :
    Except ProcErr DiscordWebhook :=
  match body with
  | none => Except.error ProcErr.malformedPayload
  | some j =>
    match decodeNotification j, decodeAdaptyEvent j with
    | some gcpNotification, adaptyRes =>
        if gcpNotification.Incident.IncidentID ≠ "" then
          Except.ok (gcpToDiscord now gcpNotification)
        else
          match adaptyRes with
          | some adaptyEvent =>
              if adaptyEvent.Event ≠ "" ∨ adaptyEvent.EventType ≠ "" then
                Except.ok (adaptyToDiscord now adaptyEvent)
              else Except.error ProcErr.unrecognizedPayload
          | none => Except.error ProcErr.unrecognizedPayload
    | none, some adaptyEvent =>
        if adaptyEvent.Event ≠ "" ∨ adaptyEvent.EventType ≠ "" then
          Except.ok (adaptyToDiscord now adaptyEvent)
        else Except.error ProcErr.unrecognizedPayload
    | none, none => Except.error ProcErr.malformedPayload

end StrictVer

-- Concrete inputs used by the witnesses and counterexamples below.

/-- A fixed render instant used by concrete evaluations. -/
def ts0 : String := "2024-01-01T00:00:00Z"

/-- Substring containment, as a relation on the character lists. -/
def containsStr (s pat : String) : Prop := pat.data <:+: s.data

instance (s pat : String) : Decidable (containsStr s pat) := by
  unfold containsStr; infer_instance

/-- The valid-JSON-no-recognized-fields probe from the spec. -/
def fooBarJson : Json := Json.obj [("foo", Json.str "bar")]

/-- A payload satisfying both the monitoring shape (non-empty
incident_id) and the subscription-event shape (non-empty event_type). -/
def gcpBothJson : Json :=
  Json.obj [("incident", Json.obj [("incident_id", Json.str "inc-123")]),
            ("event_type", Json.str "subscription_started")]

/-- The Notification that gcpBothJson decodes to. -/
def gcpBothNotif : Notification :=
  ⟨⟨"", "inc-123", "", "", "", 0, 0, "", "", "", ""⟩, ""⟩

/-- An open incident notification. -/
def openNotif : Notification :=
  ⟨⟨"my-project", "inc-7", "", "", "open", 0, 0, "cpu-policy", "cond", "", "hot"⟩, ""⟩

/-- A closed incident notification. -/
def closedNotif : Notification :=
  ⟨⟨"my-project", "inc-7", "", "", "closed", 0, 0, "cpu-policy", "cond", "", "ok"⟩, ""⟩

/-- An incident with both a start and an end time, one hour apart. -/
def bothTimesNotif : Notification :=
  ⟨⟨"p", "i", "", "", "closed", 1700000000, 1700003600, "pol", "c", "", ""⟩, ""⟩

/-- An incident with only a start time. -/
def onlyStartNotif : Notification :=
  ⟨⟨"p", "i", "", "", "open", 1700000000, 0, "pol", "c", "", ""⟩, ""⟩

/-- An incident whose project, policy and condition are all empty. -/
def emptyNamesNotif : Notification :=
  ⟨⟨"", "inc-9", "", "", "open", 0, 0, "", "", "", ""⟩, ""⟩

/-- The adapty_check verification probe from the spec. -/
def checkProbeJson : Json := Json.obj [("adapty_check", Json.str "xyz123")]

/-- The top-level isMount verification probe. -/
def mountProbeJson : Json := Json.obj [("event", Json.str "isMount")]

/-- A payload carrying both an adapty_check field and an isMount event. -/
def overlapProbeJson : Json :=
  Json.obj [("adapty_check", Json.str "x"), ("event", Json.str "isMount")]

/-- Event properties carrying a product identifier. -/
def prodProps : List (String × Json) :=
  [("vendor_product_id", Json.str "premium_monthly")]

/-- Erases the render timestamp of every embed, leaving every other
component of the message untouched. -/
def stripTimestamps (w : DiscordWebhook) : DiscordWebhook :=
  { w with Embeds := w.Embeds.map (fun e => { e with Timestamp := "" }) }

/-- The map-based dispatcher with its bare-event fallback branch and its
not-recognized error site removed; proving it equal to
MapVer.processPayload shows those two sites unreachable. -/
def MapVer.processPayloadNoFallback (now : String) (body : Option Json) :
    Except ProcErr DiscordWebhook :=
  match body with
  | none => Except.error ProcErr.malformedPayload
  | some j =>
    match unmarshalMap j with
    | none => Except.error ProcErr.malformedPayload
    | some rawPayload =>
      match decodeNotification j with
      | some gcpNotification =>
          if gcpNotification.Incident.IncidentID ≠ "" then
            Except.ok (gcpToDiscord now gcpNotification)
          else Except.ok (MapVer.adaptyMapToDiscord now rawPayload)
      | none => Except.ok (MapVer.adaptyMapToDiscord now rawPayload)

-- Shared helper lemmas.

theorem str_data_append (a b : String) : (a ++ b).data = a.data ++ b.data :=
  String.data_append a b

theorem gcpTitle_contains_verb (pid pname v : String) :
    containsStr (gcpTitle pid pname v) v := by
  refine ⟨("\"" ++ pid ++ "\" - Incident ").data,
          (" for \"" ++ pname ++ "\"").data, ?_⟩
  simp [gcpTitle, str_data_append, List.append_assoc]

theorem gcpTitle_contains_dash (pid v : String) :
    containsStr (gcpTitle pid "-" v) "for \"-\"" := by
  refine ⟨("\"" ++ pid ++ "\" - Incident " ++ v ++ " ").data, [], ?_⟩
  simp [gcpTitle, str_data_append, List.append_assoc]

/-- C5: for monitoring payloads with state open, the embed color is the
fixed red 16007725 and the title contains opened; for any other state
the color is the fixed green 1619771 and the title contains closed. -/
theorem state_color_title (now : String) (n : Notification) :
    ∃ e, (gcpToDiscord now n).Embeds = [e] ∧
      (n.Incident.State = "open" →
        e.Color = 16007725 ∧ containsStr e.Title "opened") ∧
      (n.Incident.State ≠ "open" →
        e.Color = 1619771 ∧ containsStr e.Title "closed") := by
  refine ⟨_, rfl, ?_, ?_⟩
  · intro h
    constructor
    · show (if n.Incident.State = "open" then (16007725 : Int) else 1619771) = 16007725
      rw [if_pos h]
    · show containsStr (gcpTitle _ _ (if n.Incident.State = "open" then "opened" else "closed")) "opened"
      rw [if_pos h]
      exact gcpTitle_contains_verb _ _ _
  · intro h
    constructor
    · show (if n.Incident.State = "open" then (16007725 : Int) else 1619771) = 1619771
      rw [if_neg h]
    · show containsStr (gcpTitle _ _ (if n.Incident.State = "open" then "opened" else "closed")) "closed"
      rw [if_neg h]
      exact gcpTitle_contains_verb _ _ _

/-- C5 witness: the two branches evaluated on concrete open and closed
incidents. -/
theorem state_color_title_witness :
    (∃ e, (gcpToDiscord ts0 openNotif).Embeds = [e] ∧
      e.Color = 16007725 ∧ containsStr e.Title "opened") ∧
    (∃ e, (gcpToDiscord ts0 closedNotif).Embeds = [e] ∧
      e.Color = 1619771 ∧ containsStr e.Title "closed") := by
  constructor
  · obtain ⟨e, he, h1, _⟩ := state_color_title ts0 openNotif
    exact ⟨e, he, h1 rfl⟩
  · obtain ⟨e, he, _, h2⟩ := state_color_title ts0 closedNotif
    exact ⟨e, he, h2 (by decide)⟩

/-- C7: when project_id, condition_name or policy_name is empty, the
corresponding rendered slot is the placeholder dash: the Project ID
field value, the Condition field value, and the quoted policy slot of
the title respectively. -/
theorem placeholder_dash (now : String) (n : Notification) :
    ∃ e, (gcpToDiscord now n).Embeds = [e] ∧
      (n.Incident.ProjectID = "" →
        e.Fields[0]? = some ⟨"Project ID", "-", true⟩) ∧
      (n.Incident.ConditionName = "" →
        e.Fields[2]? = some ⟨"Condition", "-", true⟩) ∧
      (n.Incident.PolicyName = "" → containsStr e.Title "for \"-\"") := by
  refine ⟨_, rfl, ?_, ?_, ?_⟩
  · intro h
    simp [h, List.cons_append]
  · intro h
    simp [h, List.cons_append]
  · intro h
    simp only [h, if_pos]
    exact gcpTitle_contains_dash _ _

/-- C7 witness: all three placeholders on an incident whose project,
policy and condition names are empty. -/
theorem placeholder_dash_witness :
    ∃ e, (gcpToDiscord ts0 emptyNamesNotif).Embeds = [e] ∧
      e.Fields[0]? = some ⟨"Project ID", "-", true⟩ ∧
      e.Fields[2]? = some ⟨"Condition", "-", true⟩ ∧
      containsStr e.Title "for \"-\"" := by
  obtain ⟨e, he, h1, h2, h3⟩ := placeholder_dash ts0 emptyNamesNotif
  exact ⟨e, he, h1 rfl, h2 rfl, h3 rfl⟩

/-- C6: an Ended-at field appears iff both started_at and ended_at are
positive, in which case its value is the RFC-3339 ended timestamp
followed by the relative-duration phrase in parentheses; with only a
start time, a Started-at field appears and no Ended-at field does. -/
theorem ended_at_field (now : String) (n : Notification) :
    ∃ e, (gcpToDiscord now n).Embeds = [e] ∧
      (e.Fields.any (fun f => f.Name == "Ended at") =
        (decide (0 < n.Incident.StartedAt) && decide (0 < n.Incident.EndedAt))) ∧
      (0 < n.Incident.StartedAt → 0 < n.Incident.EndedAt →
        e.Fields.any (fun f => f.Name == "Ended at" &&
          f.Value == (formatRFC3339Epoch n.Incident.EndedAt ++ " (" ++
            relTime n.Incident.StartedAt n.Incident.EndedAt ++ ")")) = true) ∧
      (0 < n.Incident.StartedAt → n.Incident.EndedAt ≤ 0 →
        e.Fields.any (fun f => f.Name == "Started at") = true ∧
        e.Fields.any (fun f => f.Name == "Ended at") = false) := by
  refine ⟨_, rfl, ?_, ?_, ?_⟩
  · by_cases hS : 0 < n.Incident.StartedAt
    · by_cases hE : 0 < n.Incident.EndedAt
      · simp [hS, hE, List.any_append]
      · simp [hS, hE, List.any_append]
    · simp [hS, List.any_append]
  · intro hS hE
    simp [hS, hE, List.any_append]
  · intro hS hE
    have hE2 : ¬ 0 < n.Incident.EndedAt := by omega
    simp [hS, hE2, List.any_append]

/-- C6 witness: the one-hour incident shows the Ended-at value with the
absolute timestamp and the phrase 1 hour; the start-only incident shows
Started at and no Ended at. -/
theorem ended_at_field_witness :
    (∃ e, (gcpToDiscord ts0 bothTimesNotif).Embeds = [e] ∧
      e.Fields.any (fun f => f.Name == "Ended at" &&
        f.Value == (formatRFC3339Epoch bothTimesNotif.Incident.EndedAt ++ " (" ++
          relTime bothTimesNotif.Incident.StartedAt bothTimesNotif.Incident.EndedAt ++ ")")) = true) ∧
    (∃ e, (gcpToDiscord ts0 onlyStartNotif).Embeds = [e] ∧
      e.Fields.any (fun f => f.Name == "Started at") = true ∧
      e.Fields.any (fun f => f.Name == "Ended at") = false) ∧
    formatRFC3339Epoch bothTimesNotif.Incident.EndedAt = "2023-11-14T23:13:20Z" ∧
    relTime bothTimesNotif.Incident.StartedAt bothTimesNotif.Incident.EndedAt = "1 hour" := by
  refine ⟨?_, ?_, by decide, by decide⟩
  · obtain ⟨e, he, _, hval, _⟩ := ended_at_field ts0 bothTimesNotif
    exact ⟨e, he, hval (by decide) (by decide)⟩
  · obtain ⟨e, he, _, _, honly⟩ := ended_at_field ts0 onlyStartNotif
    exact ⟨e, he, honly (by decide) (by decide)⟩

/-- C4 (code bug): the generic switch of createMapEventDescription runs
first and returns for every known event type, so even with a product
identifier present in the event properties the description is the
generic sentence and never the product-specific one: the enhanced
description code is unreachable. -/
theorem description_enhancement_dead :
    MapVer.createMapEventDescription "subscription_started" (some prodProps) =
      "A new subscription has been started." ∧
    MapVer.createMapEventDescription "subscription_started" (some prodProps) ≠
      "A new subscription for **premium_monthly** has been started." := by
  constructor
  · rfl
  · decide

/-- C1: whenever the bytes decode into the monitoring shape with a
non-empty incident_id, both dispatcher variants return the monitoring
rendering, regardless of whether the subscription-event matcher would
also accept the payload (the monitoring matcher runs first). -/
theorem monitoring_priority (now : String) (j : Json) (n : Notification) :
    decodeNotification j = some n → n.Incident.IncidentID ≠ "" →
    MapVer.processPayload now (some j) = Except.ok (gcpToDiscord now n) ∧
    StrictVer.processPayload now (some j) = Except.ok (gcpToDiscord now n) := by
  intro hdec hid
  obtain ⟨kvs, rfl⟩ : ∃ kvs, j = Json.obj kvs := by
    cases j with
    | obj kvs => exact ⟨kvs, rfl⟩
    | null =>
        rw [show decodeNotification Json.null = some ⟨zeroIncident, ""⟩ from rfl] at hdec
        cases hdec
        exact absurd rfl hid
    | bool b => exact absurd hdec (by simp [decodeNotification])
    | num q => exact absurd hdec (by simp [decodeNotification])
    | str s => exact absurd hdec (by simp [decodeNotification])
    | arr xs => exact absurd hdec (by simp [decodeNotification])
  constructor
  · simp [MapVer.processPayload, unmarshalMap, hdec, hid]
  · simp [StrictVer.processPayload, hdec, hid]

/-- C1 witness: a payload that carries both a non-empty incident_id and
a non-empty event_type (so the subscription matcher of the strict
variant would accept it too) is rendered as a monitoring incident by
both variants. -/
theorem monitoring_priority_witness :
    MapVer.processPayload ts0 (some gcpBothJson) =
      Except.ok (gcpToDiscord ts0 gcpBothNotif) ∧
    StrictVer.processPayload ts0 (some gcpBothJson) =
      Except.ok (gcpToDiscord ts0 gcpBothNotif) ∧
    StrictVer.decodeAdaptyEvent gcpBothJson =
      some ⟨"", "subscription_started", 0, StrictVer.zeroEventData⟩ := by
  obtain ⟨h1, h2⟩ := monitoring_priority ts0 gcpBothJson gcpBothNotif rfl (by decide)
  exact ⟨h1, h2, rfl⟩

theorem stripTimestamps_gcp (t1 t2 : String) (n : Notification) :
    stripTimestamps (gcpToDiscord t1 n) = stripTimestamps (gcpToDiscord t2 n) := rfl

theorem stripTimestamps_adaptyMap (t1 t2 : String) (ev : List (String × Json)) :
    stripTimestamps (MapVer.adaptyMapToDiscord t1 ev) =
      stripTimestamps (MapVer.adaptyMapToDiscord t2 ev) := rfl

/-- C9: the map-based pipeline is deterministic up to the embedded
render timestamp: for two runs at different render instants, the
outputs agree after the timestamps are erased. -/
theorem render_deterministic (oj : Option Json) (t1 t2 : String) :
    (MapVer.processPayload t1 oj).map stripTimestamps =
      (MapVer.processPayload t2 oj).map stripTimestamps := by
  cases oj with
  | none => rfl
  | some j =>
    cases hm : unmarshalMap j with
    | none => simp [MapVer.processPayload, hm]
    | some raw =>
      cases hd : decodeNotification j with
      | none =>
          simp [MapVer.processPayload, hm, hd, MapVer.processAdapty, Except.map]
          exact stripTimestamps_adaptyMap t1 t2 raw
      | some n =>
          by_cases hid : n.Incident.IncidentID = ""
          · simp [MapVer.processPayload, hm, hd, hid, MapVer.processAdapty, Except.map]
            exact stripTimestamps_adaptyMap t1 t2 raw
          · simp [MapVer.processPayload, hm, hd, hid, Except.map]
            exact stripTimestamps_gcp t1 t2 n

/-- C10 counterexample: the literal null is valid JSON whose top level
is not an object, yet the map-based processPayload accepts it (Go
unmarshals null into a map as a successful no-op) instead of rejecting
it with the JSON-parse-failure error. -/
theorem null_accepted_by_map_variant :
    MapVer.processPayload ts0 (some Json.null) =
      Except.ok (MapVer.adaptyMapToDiscord ts0 []) := rfl

/-- C10 amended: every top-level object (and also the literal null) is
accepted by the map-based dispatcher; the bare-event fallback branch and
the not-recognized error are unreachable (the dispatcher equals its
no-fallback reduction and never returns unrecognizedPayload); every
other JSON value is rejected with the parse-failure error, as are bytes
that are not valid JSON. -/
theorem map_variant_acceptance (now : String) :
    (∀ j raw, unmarshalMap j = some raw →
      exceptOk (MapVer.processPayload now (some j)) = true) ∧
    (∀ j, unmarshalMap j = none →
      MapVer.processPayload now (some j) = Except.error ProcErr.malformedPayload) ∧
    MapVer.processPayload now none = Except.error ProcErr.malformedPayload ∧
    (∀ oj, MapVer.processPayload now oj = MapVer.processPayloadNoFallback now oj) ∧
    (∀ oj, MapVer.processPayload now oj ≠ Except.error ProcErr.unrecognizedPayload) := by
  have heq : ∀ oj, MapVer.processPayload now oj = MapVer.processPayloadNoFallback now oj := by
    intro oj
    cases oj with
    | none => rfl
    | some j =>
      cases hm : unmarshalMap j with
      | none => simp [MapVer.processPayload, MapVer.processPayloadNoFallback, hm]
      | some raw =>
        cases hd : decodeNotification j with
        | none =>
            simp [MapVer.processPayload, MapVer.processPayloadNoFallback, hm, hd,
              MapVer.processAdapty]
        | some n =>
            by_cases hid : n.Incident.IncidentID = ""
            · simp [MapVer.processPayload, MapVer.processPayloadNoFallback, hm, hd, hid,
                MapVer.processAdapty]
            · simp [MapVer.processPayload, MapVer.processPayloadNoFallback, hm, hd, hid]
  refine ⟨?_, ?_, rfl, heq, ?_⟩
  · intro j raw hm
    rw [heq]
    cases hd : decodeNotification j with
    | none => simp [MapVer.processPayloadNoFallback, hm, hd, exceptOk]
    | some n =>
        by_cases hid : n.Incident.IncidentID = ""
        · simp [MapVer.processPayloadNoFallback, hm, hd, hid, exceptOk]
        · simp [MapVer.processPayloadNoFallback, hm, hd, hid, exceptOk]
  · intro j hm
    rw [heq]
    simp [MapVer.processPayloadNoFallback, hm]
  · intro oj
    rw [heq]
    cases oj with
    | none => simp [MapVer.processPayloadNoFallback]
    | some j =>
      cases hm : unmarshalMap j with
      | none => simp [MapVer.processPayloadNoFallback, hm]
      | some raw =>
        cases hd : decodeNotification j with
        | none => simp [MapVer.processPayloadNoFallback, hm, hd]
        | some n =>
            by_cases hid : n.Incident.IncidentID = ""
            · simp [MapVer.processPayloadNoFallback, hm, hd, hid]
            · simp [MapVer.processPayloadNoFallback, hm, hd, hid]

/-- C10 witness: the acceptance conjunct evaluated on a concrete object
payload and the rejection conjunct on a concrete array payload. -/
theorem map_variant_acceptance_witness :
    exceptOk (MapVer.processPayload ts0 (some fooBarJson)) = true ∧
    MapVer.processPayload ts0 (some (Json.arr [Json.num 1])) =
      Except.error ProcErr.malformedPayload := by
  obtain ⟨hacc, hrej, _, _, _⟩ := map_variant_acceptance ts0
  exact ⟨hacc fooBarJson [("foo", Json.str "bar")] rfl,
         hrej (Json.arr [Json.num 1]) rfl⟩

/-- C2 counterexample: the valid-JSON no-recognized-fields payload from
the spec is accepted by the map-based processPayload (the loose map
renderer takes any object), so it does not fail with the
UnrecognizedPayload error the claim requires. -/
theorem fooBar_accepted_by_map_variant :
    MapVer.processPayload ts0 (some fooBarJson) =
      Except.ok (MapVer.adaptyMapToDiscord ts0 [("foo", Json.str "bar")]) := rfl

/-- C2 amended: non-JSON bytes fail with the MalformedPayload error in
both variants (though so does valid JSON that fails the initial
unmarshal); the strictly-typed variant fails the no-recognized-fields
object with UnrecognizedPayload, while the map-based variant accepts
it; MalformedPayload and UnrecognizedPayload are the only error kinds
either variant returns. -/
theorem error_kinds_amended (now : String) :
    MapVer.processPayload now none = Except.error ProcErr.malformedPayload ∧
    StrictVer.processPayload now none = Except.error ProcErr.malformedPayload ∧
    StrictVer.processPayload now (some fooBarJson) =
      Except.error ProcErr.unrecognizedPayload ∧
    exceptOk (MapVer.processPayload now (some fooBarJson)) = true ∧
    (∀ oj e, MapVer.processPayload now oj = Except.error e →
      e = ProcErr.malformedPayload ∨ e = ProcErr.unrecognizedPayload) ∧
    (∀ oj e, StrictVer.processPayload now oj = Except.error e →
      e = ProcErr.malformedPayload ∨ e = ProcErr.unrecognizedPayload) := by
  refine ⟨rfl, rfl, rfl, rfl, ?_, ?_⟩
  · intro oj e _
    cases e
    · exact Or.inl rfl
    · exact Or.inr rfl
  · intro oj e _
    cases e
    · exact Or.inl rfl
    · exact Or.inr rfl

/-- C2 witness: the amended statement applied at a fixed render instant,
with its quantified conjuncts discharged at the concrete malformed
input. -/
theorem error_kinds_amended_witness :
    StrictVer.processPayload ts0 (some fooBarJson) =
      Except.error ProcErr.unrecognizedPayload ∧
    (ProcErr.malformedPayload = ProcErr.malformedPayload ∨
      ProcErr.malformedPayload = ProcErr.unrecognizedPayload) := by
  obtain ⟨hmap, _, hstrict, _, hkinds, _⟩ := error_kinds_amended ts0
  exact ⟨hstrict, hkinds none ProcErr.malformedPayload hmap⟩

/-- C3 counterexample: on a payload carrying both an adapty_check string
and an isMount event, the response is the adapty_check echo, not the
fixed mount acknowledgement the claim requires for every isMount
payload: the adapty_check probe is checked first. -/
theorem adaptyCheck_wins_over_mount :
    MapVer.F_core ts0 (some overlapProbeJson) =
      MapVer.FOutcome.verification (MapVer.adaptyCheckBody "x") ∧
    MapVer.adaptyCheckBody "x" ≠ MapVer.mountAckBody := by
  exact ⟨rfl, by decide⟩

/-- C3 amended: a payload with a string adapty_check field is answered
with the echoed check response and is never classified or delivered; a
payload without one whose event is the string isMount at top level, or
(when the top-level event is not the string isMount) nested one level
under a data object, is answered with the fixed acknowledgement, again
without classification or delivery. -/
theorem verification_responder (now : String) (j : Json)
    (raw : List (String × Json)) :
    unmarshalMap j = some raw →
    (∀ s, asStr (jlookup raw "adapty_check") = some s →
      MapVer.F_core now (some j) =
        MapVer.FOutcome.verification (MapVer.adaptyCheckBody s)) ∧
    (asStr (jlookup raw "adapty_check") = none →
      (asStr (jlookup raw "event") = some "isMount" →
        MapVer.F_core now (some j) =
          MapVer.FOutcome.verification MapVer.mountAckBody) ∧
      (asStr (jlookup raw "event") ≠ some "isMount" →
        ∀ d, asObj (jlookup raw "data") = some d →
          asStr (jlookup d "event") = some "isMount" →
          MapVer.F_core now (some j) =
            MapVer.FOutcome.verification MapVer.mountAckBody)) := by
  intro hm
  refine ⟨?_, ?_⟩
  · intro s hs
    simp [MapVer.F_core, hm, hs]
  · intro hnone
    refine ⟨?_, ?_⟩
    · intro hev
      simp [MapVer.F_core, hm, hnone, hev]
    · intro hnev d hd hde
      simp [MapVer.F_core, hm, hnone, hnev, hd, hde]

/-- C3 witness: the spec probes evaluated concretely: the adapty_check
probe echoes xyz123 in the exact response body, and the top-level
isMount probe gets the fixed acknowledgement. -/
theorem verification_responder_witness :
    MapVer.F_core ts0 (some checkProbeJson) =
      MapVer.FOutcome.verification
        "\x7b\"adapty_check_response\": \"xyz123\"\x7d" ∧
    MapVer.F_core ts0 (some mountProbeJson) =
      MapVer.FOutcome.verification MapVer.mountAckBody := by
  constructor
  · have h := (verification_responder ts0 checkProbeJson
      [("adapty_check", Json.str "xyz123")] rfl).1 "xyz123" rfl
    exact h.trans (by decide)
  · exact ((verification_responder ts0 mountProbeJson
      [("event", Json.str "isMount")] rfl).2 rfl).1 rfl

/-- C8: the date formatter is total: when the first layout parses, it
returns that parse rendered human-readably; when only the RFC-3339
layout parses, likewise; and when both layouts fail, it returns the
input string unchanged. -/
theorem formatDate_total (s : String) :
    (∀ t, parseLayout1 s = some t → MapVer.formatDate s = formatHumanDate t) ∧
    (parseLayout1 s = none → ∀ t, parseRFC3339 s = some t →
      MapVer.formatDate s = formatHumanDate t) ∧
    (parseLayout1 s = none → parseRFC3339 s = none →
      MapVer.formatDate s = s) := by
  refine ⟨?_, ?_, ?_⟩
  · intro t ht
    simp [MapVer.formatDate, ht]
  · intro h1 t ht
    simp [MapVer.formatDate, h1, ht]
  · intro h1 h2
    simp [MapVer.formatDate, h1, h2]

/-- C8 witness: a microsecond-layout date, an RFC-3339 date and an
unparseable string evaluated concretely. -/
theorem formatDate_total_witness :
    MapVer.formatDate "2024-03-05T07:08:09.000000+0000" = "Mar 5, 2024 07:08 UTC" ∧
    MapVer.formatDate "2023-11-14T22:13:20Z" = "Nov 14, 2023 22:13 UTC" ∧
    MapVer.formatDate "not a date" = "not a date" := by
  refine ⟨?_, ?_, ?_⟩
  · have h := (formatDate_total "2024-03-05T07:08:09.000000+0000").1
      ⟨2024, 3, 5, 7, 8, 9, 0⟩ (by decide)
    exact h.trans (by decide)
  · have h := (formatDate_total "2023-11-14T22:13:20Z").2.1 (by decide)
      ⟨2023, 11, 14, 22, 13, 20, 0⟩ (by decide)
    exact h.trans (by decide)
  · exact (formatDate_total "not a date").2.2 (by decide) (by decide)
